import Mathlib

/-
Verification of the NodeGaze payment-dashboard frontend.

Shallow embedding of:
  * the payments page with the count aggregator and filter handler
    (src/unnamed/part_004, `Page`, `fetchIncomingCount`, `fetchAllCount`,
    `fetchOutgoingCount`, `handleApplyFilters`);
  * the older payments page (src/frontend/src/app/payments/page.tsx) whose
    "all" badge renders `payments.length`;
  * the pagination logic of the events page (src/unnamed/part_002,
    `totalPages`, `getPaginationNumbers`, `currentData`).

The DataTable component (payment-table.tsx) is not part of the source set;
the operations the spec assigns to it are modelled from the spec and are
marked as such in their doc comments.
-/

namespace NodeGaze

/-! ## Wire-level values and the response envelope -/

/-- A JSON-ish wire value as far as the count extraction cares: either a
numeric field (`jnum`) or a non-numeric one (`jstr`; `Number(·)` of a
non-numeric string is `NaN`, and `NaN || 0` evaluates to `0`). -/
inductive JVal where
  | jnum (n : Int)
  | jstr (s : String)
deriving DecidableEq, Repr

/-- The `pagination` object of the response envelope; `total_items` may be
absent (`none` models `undefined`/`null`, skipped by `??`). -/
structure PaginationEnvelope where
  total_items : Option JVal
deriving DecidableEq, Repr

/-- The `data` object of the response envelope; `items` may be absent. -/
structure DataEnvelope where
  items : Option (List JVal)
deriving DecidableEq, Repr

/-- The parsed JSON response of `/api/payments`: both `pagination` and
`data` may be absent (optional chaining `data?.pagination?.total_items`). -/
structure ApiResponse where
  pagination : Option PaginationEnvelope
  data : Option DataEnvelope
deriving DecidableEq, Repr

/-- `data?.pagination?.total_items` — the explicit total of the envelope. -/
def totalField (r : ApiResponse) : Option JVal :=
  r.pagination.bind (·.total_items)

/-- `data?.data?.items` — the returned record list of the envelope. -/
def itemsField (r : ApiResponse) : Option (List JVal) :=
  r.data.bind (·.items)

/-- `Number(v) || 0`: a numeric value passes through (`Number(0) || 0 = 0`),
a non-numeric one becomes `NaN` and then `0`. -/
def numberOr0 : JVal → Int
  | .jnum n => n
  | .jstr _ => 0

/-- `Number(data?.pagination?.total_items ?? data?.data?.items?.length ?? 0) || 0`
— the count extraction shared by `fetchIncomingCount`, `fetchAllCount` and
`fetchOutgoingCount` in src/unnamed/part_004 (lines 97, 111, 125). -/
def extractCount (r : ApiResponse) : Int :=
  match totalField r with
  | some v => numberOr0 v
  | none =>
    match itemsField r with
    | some items => (items.length : Int)
    | none => 0

/-! ## Filter model (src/unnamed/part_004, `PaymentFilters`) -/

/-- `paymentState?: "settled" | "failed" | "pending"`. -/
inductive PaymentState where
  | settled
  | failed
  | pending
deriving DecidableEq, Repr

/-- The string the page stores into `selectedState`. -/
def paymentStateStr : PaymentState → String
  | .settled => "settled"
  | .failed => "failed"
  | .pending => "pending"

/-- `operator?: "gte" | "lte" | "eq"`. -/
inductive CompOp where
  | gte
  | lte
  | eq
deriving DecidableEq, Repr

/-- `PaymentFilters` from src/unnamed/part_004 lines 75-81; every field is
optional, `none` meaning the dimension is unconstrained.  The JSON fields
`from`/`to` (YYYY-MM-DD strings) are named `fromDate`/`toDate` here because
`from` is reserved in Lean. -/
structure PaymentFilters where
  paymentState : Option PaymentState := none
  operator : Option CompOp := none
  value : Option Int := none
  fromDate : Option String := none
  toDate : Option String := none
deriving DecidableEq, Repr

/-- The validity violation of the spec (section 4.1): the numeric threshold
is negative while the operator dimension is set, or the date-range start is
chronologically after its end (YYYY-MM-DD strings compare lexicographically
in date order). -/
def FilterInvalid (f : PaymentFilters) : Prop :=
  (f.operator.isSome = true ∧ ∃ v, f.value = some v ∧ v < 0) ∨
  (∃ a b, f.fromDate = some a ∧ f.toDate = some b ∧ b < a)

/-! ## The payments page of src/unnamed/part_004 -/

/-- The React state of `Page` in src/unnamed/part_004 (lines 85-90):
`selectedState`, `payments`, the three category counts and `filters`.
The payment record type is a parameter since payment-table.tsx, which
exports `Payment`, is not part of the source set. -/
structure PageState (α : Type) where
  selectedState : String
  payments : List α
  incomingCount : Int
  outgoingCount : Int
  allCount : Int
  filters : PaymentFilters
deriving DecidableEq, Repr

/-- `handleApplyFilters` (src/unnamed/part_004 lines 134-139):
`setFilters(applied); if (applied.paymentState) setSelectedState(applied.paymentState);`
— no validation of any kind is performed. -/
def handleApplyFilters {α : Type} (s : PageState α) (applied : PaymentFilters) :
    PageState α :=
  let s1 := { s with filters := applied }
  match applied.paymentState with
  | some ps => { s1 with selectedState := paymentStateStr ps }
  | none => s1

/-- The `setPayments` state setter handed to the DataTable
(src/unnamed/part_004 line 207). -/
def setPayments {α : Type} (s : PageState α) (ps : List α) : PageState α :=
  { s with payments := ps }

/-- One resolution of the `fetchIncomingCount` effect
(src/unnamed/part_004 lines 93-102): on a successful response the count is
extracted from the envelope, on a thrown error (`none`) the `catch` sets `0`. -/
def applyIncomingCount {α : Type} (s : PageState α) (outcome : Option ApiResponse) :
    PageState α :=
  match outcome with
  | some r => { s with incomingCount := extractCount r }
  | none => { s with incomingCount := 0 }

/-- One resolution of the `fetchAllCount` effect
(src/unnamed/part_004 lines 107-116): the query carries no filter
parameters (`/api/payments?per_page=1&page=1`) and the `catch` sets `0`. -/
def applyAllCount {α : Type} (s : PageState α) (outcome : Option ApiResponse) :
    PageState α :=
  match outcome with
  | some r => { s with allCount := extractCount r }
  | none => { s with allCount := 0 }

/-- One resolution of the `fetchOutgoingCount` effect
(src/unnamed/part_004 lines 121-130). -/
def applyOutgoingCount {α : Type} (s : PageState α) (outcome : Option ApiResponse) :
    PageState α :=
  match outcome with
  | some r => { s with outgoingCount := extractCount r }
  | none => { s with outgoingCount := 0 }

/-- The badge rendered for a payment-type key in src/unnamed/part_004
line 201: `type.key === "incoming" ? incomingCount : type.key === "all" ?
allCount : type.key === "outgoing" ? outgoingCount : 0`. -/
def badgeValue {α : Type} (s : PageState α) (key : String) : Int :=
  if key = "incoming" then s.incomingCount
  else if key = "all" then s.allCount
  else if key = "outgoing" then s.outgoingCount
  else 0

/-- The badge rendered in the older payments page
(src/frontend/src/app/payments/page.tsx line 146):
`type.key === "all" ? payments.length : 0` — the "all" badge is the length
of the currently displayed record list, the others are constantly `0`. -/
def oldBadgeValue {α : Type} (key : String) (payments : List α) : Int :=
  if key = "all" then (payments.length : Int) else 0

/-! ## Pagination logic of the events page (src/unnamed/part_002) -/

/-- `Math.ceil(totalItems / itemsPerPage)` for natural operands — the
`totalPages` computation of src/unnamed/part_002 line 48
(`Math.ceil(endpointsData.length / itemsPerPage)`).  For `a ≥ 0`, `b ≥ 1`
the ceiling of the rational `a / b` is `(a + b - 1) / b` in natural
division.  Note there is no `max(1, ·)` in the source. -/
def computePages (totalItems itemsPerPage : Nat) : Nat :=
  (totalItems + itemsPerPage - 1) / itemsPerPage

/-- `max(1, ceil(totalItems / pageSize))` — the contract the spec states
for `computePages`, written from the spec's words for comparison with the
source computation. -/
def specComputePages (totalItems itemsPerPage : Nat) : Nat :=
  max 1 ((totalItems + itemsPerPage - 1) / itemsPerPage)

/-- `endpointsData.slice(startIndex, startIndex + itemsPerPage)` with
`startIndex = (currentPage - 1) * itemsPerPage`
(src/unnamed/part_002 lines 49-53): the record window of the current page. -/
def currentData {α : Type} (data : List α) (currentPage itemsPerPage : Nat) :
    List α :=
  (data.drop ((currentPage - 1) * itemsPerPage)).take itemsPerPage

/-- The list `[s, s+1, ..., e]` (empty when `e < s`) — the
`for (let i = start; i <= end; i++) pages.push(i)` loop. -/
def intRange (s e : Int) : List Int :=
  (List.range (e + 1 - s).toNat).map (fun i : Nat => s + (i : Int))

/-- `getPaginationNumbers` of src/unnamed/part_002 lines 55-69, with the
locally fixed `maxVisible = 5` generalized to a parameter (the spec's
`windowOf(totalPages, current, maxVisible)`):
`let start = Math.max(1, currentPage - Math.floor(maxVisible / 2));`
`const end = Math.min(totalPages, start + maxVisible - 1);`
`if (end - start + 1 < maxVisible) start = Math.max(1, end - maxVisible + 1);`
then the pages `start..end` are collected.  Lean's `Int` division by a
positive constant is floor division, matching `Math.floor`. -/
def windowOf (totalPages currentPage maxVisible : Int) : List Int :=
  let start := max 1 (currentPage - maxVisible / 2)
  let stop := min totalPages (start + maxVisible - 1)
  let start := if stop - start + 1 < maxVisible then max 1 (stop - maxVisible + 1)
               else start
  intRange start stop

/-- `getPaginationNumbers` exactly as in the source, where
`const maxVisible = 5`. -/
def getPaginationNumbers (totalPages currentPage : Int) : List Int :=
  windowOf totalPages currentPage 5

/-- Modelled from the spec: `clampPage(requested, totalPages) → page =
min(max(1, requested), totalPages)` (section 4.4).  No clamping code is
present in the source set — the events page only ever feeds in-range page
numbers to `setCurrentPage`, and payment-table.tsx is absent. -/
def clampPage (requested totalPages : Int) : Int :=
  min (max 1 requested) totalPages

/-! ## Spec-modelled fetcher and view synchronizer (payment-table.tsx is
not part of the source set) -/

/-- Modelled from the spec: the re-entrant Collection Fetcher of sections
4.2 and 5 (payment-table.tsx / DataTable is missing from the source set).
`latestToken` is the monotonically increasing token of the most recently
issued request; `visible` is the visible record set of the tab. -/
structure FetchState (α : Type) where
  latestToken : Nat
  visible : List α
deriving DecidableEq, Repr

/-- Modelled from the spec: issuing a fetch tags it with the next token in
the monotone sequence and records that token as the latest issued. -/
def issueFetch {α : Type} (s : FetchState α) : FetchState α × Nat :=
  ({ s with latestToken := s.latestToken + 1 }, s.latestToken + 1)

/-- Modelled from the spec: a response is applied to the visible state only
when its request token is the latest issued; a superseded response is
discarded (`StaleResponseDiscarded`, an internal no-op). -/
def resolveFetch {α : Type} (s : FetchState α) (token : Nat) (result : List α) :
    FetchState α :=
  if token = s.latestToken then { s with visible := result } else s

/-- The direction tab (all / incoming / outgoing). -/
inductive Direction where
  | all
  | incoming
  | outgoing
deriving DecidableEq, Repr

/-- Modelled from the spec: the View Synchronizer state of sections 4.4-4.5
and 6 (payment-table.tsx / DataTable is missing from the source set) —
direction tab, active filter criteria and 1-indexed current page. -/
structure ViewState where
  direction : Direction
  filters : PaymentFilters
  currentPage : Nat
deriving DecidableEq, Repr

/-- Modelled from the spec: `applyFilter(criteria)` replaces the criteria
atomically and re-anchors pagination to page 1 (sections 4.4, 4.5, 6). -/
def applyFilter (s : ViewState) (f : PaymentFilters) : ViewState :=
  { s with filters := f, currentPage := 1 }

/-- Modelled from the spec: `setDirection(tab)` switches the direction tab
and resets the current page to 1 (sections 4.4, 4.5, 6). -/
def setDirection (s : ViewState) (d : Direction) : ViewState :=
  { s with direction := d, currentPage := 1 }

/-- Modelled from the spec: `goToPage(n)` changes only the page number
(sections 4.5, 6, 8). -/
def goToPage (s : ViewState) (n : Nat) : ViewState :=
  { s with currentPage := n }

/-! ## Helper lemmas -/

theorem intRange_length (s e : Int) : (intRange s e).length = (e + 1 - s).toNat := by
  rw [intRange, List.length_map, List.length_range]

theorem mem_intRange {s e x : Int} : x ∈ intRange s e ↔ s ≤ x ∧ x ≤ e := by
  rw [intRange, List.mem_map]
  constructor
  · rintro ⟨i, hi, rfl⟩
    rw [List.mem_range] at hi
    omega
  · rintro ⟨h1, h2⟩
    refine ⟨(x - s).toNat, List.mem_range.mpr (by omega), by omega⟩

theorem handleApplyFilters_counts {α : Type} (s : PageState α)
    (applied : PaymentFilters) :
    (handleApplyFilters s applied).incomingCount = s.incomingCount ∧
    (handleApplyFilters s applied).allCount = s.allCount ∧
    (handleApplyFilters s applied).outgoingCount = s.outgoingCount ∧
    (handleApplyFilters s applied).payments = s.payments := by
  unfold handleApplyFilters
  cases applied.paymentState <;> simp

/-! ## Claim theorems -/

/-- C1 counterexample: in the payments page at
src/frontend/src/app/payments/page.tsx (line 146) the "all" category badge
renders `payments.length`: it varies with the currently displayed record
list (here `[0]` versus `[]` gives badge `1` versus `0`), so it is derived
from the in-view record set and is not an unfiltered global total fetched
once at mount; the other badges are the constant `0`, not fetched totals. -/
theorem c1_counterexample :
    oldBadgeValue "all" ([0] : List Nat) = 1 ∧
    oldBadgeValue "all" ([] : List Nat) = 0 ∧
    oldBadgeValue "all" ([0] : List Nat) ≠ oldBadgeValue "all" ([] : List Nat) ∧
    oldBadgeValue "incoming" ([0] : List Nat) = 0 := by
  decide

/-- C1 (amended): in the payments page of src/unnamed/part_004 the three
category badges read only the dedicated count state variables, which are
written solely by the three mount effects (empty dependency arrays);
applying filters and replacing the displayed payment list leave every badge
unchanged, and the value a count effect stores depends only on its own
response, never on the rest of the page state.  In the older page at
src/frontend/src/app/payments/page.tsx, however, the "all" badge is
`payments.length`, i.e. derived from the currently displayed record set. -/
theorem c1_amended (α : Type) (s : PageState α) (applied : PaymentFilters)
    (ps : List α) (key : String) :
    badgeValue (handleApplyFilters s applied) key = badgeValue s key ∧
    badgeValue (setPayments s ps) key = badgeValue s key ∧
    (∀ (t u : PageState α) (o : Option ApiResponse),
      (applyIncomingCount t o).incomingCount = (applyIncomingCount u o).incomingCount ∧
      (applyAllCount t o).allCount = (applyAllCount u o).allCount ∧
      (applyOutgoingCount t o).outgoingCount = (applyOutgoingCount u o).outgoingCount) := by
  obtain ⟨h1, h2, h3, -⟩ := handleApplyFilters_counts s applied
  refine ⟨?_, ?_, ?_⟩
  · unfold badgeValue
    rw [h1, h2, h3]
  · unfold badgeValue setPayments
    rfl
  · intro t u o
    cases o <;> simp [applyIncomingCount, applyAllCount, applyOutgoingCount]

/-- C2 counterexample: the `totalPages` computation of src/unnamed/part_002
line 48 is `Math.ceil(totalItems / itemsPerPage)` without the claimed
`max(1, ·)`: at `totalItems = 0`, `pageSize = 1` the code yields `0` while
`max(1, ceil(0/1)) = 1`. -/
theorem c2_counterexample :
    computePages 0 1 = 0 ∧ specComputePages 0 1 = 1 ∧
    computePages 0 1 ≠ specComputePages 0 1 := by
  decide

/-- C2 (amended): `computePages` returns `ceil(totalItems/pageSize)` with no
lower bound, so it is `≥ 1` only when `totalItems ≥ 1` (`totalItems = 0`
yields `0`, not `1`); `clampPage` (modelled from the spec, absent from the
source set) returns a value in `[1, totalPages]` whenever `totalPages ≥ 1`. -/
theorem c2_amended :
    (∀ t p : Nat, 1 ≤ t → 1 ≤ p → 1 ≤ computePages t p) ∧
    computePages 0 1 = 0 ∧
    (∀ requested tp : Int, 1 ≤ tp →
      1 ≤ clampPage requested tp ∧ clampPage requested tp ≤ tp) := by
  refine ⟨?_, by decide, ?_⟩
  · intro t p ht hp
    rw [computePages]
    rw [Nat.le_div_iff_mul_le hp]
    omega
  · intro requested tp h
    unfold clampPage
    omega

/-- C2 witness: the amended bounds evaluated at concrete inputs. -/
theorem c2_witness :
    1 ≤ computePages 3 2 ∧ 1 ≤ clampPage 7 4 ∧ clampPage 7 4 ≤ 4 :=
  ⟨c2_amended.1 3 2 (by decide) (by decide),
   (c2_amended.2.2 7 4 (by decide)).1,
   (c2_amended.2.2 7 4 (by decide)).2⟩

/-- C3 counterexample: with `totalItems = 0` (and the page's
`itemsPerPage = 1`) the code computes `totalPages = 0` and
`getPaginationNumbers` returns the empty list, not `[1]`. -/
theorem c3_counterexample :
    getPaginationNumbers ((computePages 0 1 : Nat) : Int) 1 = ([] : List Int) ∧
    ([] : List Int) ≠ [1] := by
  decide

/-- C3 (amended): when the collection is empty the code yields
`totalPages = 0` and an empty pagination window `[]` (never undefined —
the function totally returns a list), and the record window of any page is
empty; the current page is the unchanged initial `1`. -/
theorem c3_amended :
    computePages 0 1 = 0 ∧
    getPaginationNumbers ((computePages 0 1 : Nat) : Int) 1 = ([] : List Int) ∧
    (∀ page perPage : Nat, currentData ([] : List Nat) page perPage = []) := by
  refine ⟨by decide, by decide, ?_⟩
  intro page perPage
  simp [currentData]

/-- C4: among two fetches on the same tab where A is issued first, B is
issued before A resolves and A resolves after B, the final visible record
set is B's result: tokens increase monotonically and a response whose token
is not the latest issued is discarded without touching visible state.
(The Collection Fetcher lives in payment-table.tsx, which is not in the
source set; `issueFetch`/`resolveFetch` are modelled from spec sections
4.2 and 5.) -/
theorem c4_stale_discard (α : Type) (s0 : FetchState α) (rA rB : List α) :
    (resolveFetch
      (resolveFetch (issueFetch (issueFetch s0).1).1
        (issueFetch (issueFetch s0).1).2 rB)
      (issueFetch s0).2 rA).visible = rB ∧
    (∀ (s : FetchState α) (t : Nat) (r : List α),
      t ≠ s.latestToken → resolveFetch s t r = s) ∧
    (issueFetch s0).2 < (issueFetch (issueFetch s0).1).2 := by
  refine ⟨?_, ?_, ?_⟩
  · simp [issueFetch, resolveFetch]
  · intro s t r h
    simp [resolveFetch, h]
  · simp [issueFetch]

/-- C4 witness: the A/B race evaluated on a concrete fetch state, and a
concrete stale response being discarded. -/
theorem c4_witness :
    (resolveFetch
      (resolveFetch (issueFetch (issueFetch (⟨0, []⟩ : FetchState Nat)).1).1
        (issueFetch (issueFetch (⟨0, []⟩ : FetchState Nat)).1).2 [2])
      (issueFetch (⟨0, []⟩ : FetchState Nat)).2 [1]).visible = [2] ∧
    resolveFetch (⟨5, [9]⟩ : FetchState Nat) 3 [7] = ⟨5, [9]⟩ :=
  ⟨(c4_stale_discard Nat ⟨0, []⟩ [1] [2]).1,
   (c4_stale_discard Nat ⟨0, []⟩ [1] [2]).2.1 ⟨5, [9]⟩ 3 [7] (by decide)⟩

/-- C5 counterexample: `handleApplyFilters` (src/unnamed/part_004 lines
134-139) performs no validation: applying criteria whose threshold is
negative while the operator is set is not rejected — the invalid criteria
replace the previously active (empty) criteria, and no `InvalidFilterError`
exists anywhere in the source set. -/
theorem c5_counterexample :
    FilterInvalid { operator := some CompOp.gte, value := some (-5) } ∧
    (handleApplyFilters (⟨"all", [], 0, 0, 0, {}⟩ : PageState Nat)
        { operator := some CompOp.gte, value := some (-5) }).filters =
      { operator := some CompOp.gte, value := some (-5) } ∧
    ({ operator := some CompOp.gte, value := some (-5) } : PaymentFilters) ≠
      ({} : PaymentFilters) := by
  exact ⟨Or.inl ⟨rfl, ⟨-5, rfl, by decide⟩⟩, rfl, by decide⟩

/-- C5 (amended): invalid criteria (negative threshold with the operator
set, or date range start after end) are NOT rejected: `handleApplyFilters`
unconditionally stores the applied object as the active criteria, so the
previous criteria do not remain active and no error is surfaced. -/
theorem c5_amended (α : Type) (s : PageState α) (applied : PaymentFilters)
    (_hbad : FilterInvalid applied) :
    (handleApplyFilters s applied).filters = applied := by
  unfold handleApplyFilters
  cases applied.paymentState <;> simp

/-- C5 witness: the amended statement evaluated at a concrete invalid
filter. -/
theorem c5_witness :
    (handleApplyFilters (⟨"all", [], 0, 0, 0, {}⟩ : PageState Nat)
        { operator := some CompOp.gte, value := some (-5) }).filters =
      { operator := some CompOp.gte, value := some (-5) } :=
  c5_amended Nat ⟨"all", [], 0, 0, 0, {}⟩
    { operator := some CompOp.gte, value := some (-5) }
    (Or.inl ⟨rfl, ⟨-5, rfl, by decide⟩⟩)

/-- C6 counterexample: the `catch` of a failed count fetch only stores `0`
(src/unnamed/part_004 lines 99-101) — the resulting page state is identical
to that of a successful fetch whose envelope reports `total_items = 0`, so
the failing category is NOT marked stale/error in any observable way. -/
theorem c6_counterexample :
    applyIncomingCount (⟨"all", [], 7, 8, 9, {}⟩ : PageState Nat) none =
      applyIncomingCount (⟨"all", [], 7, 8, 9, {}⟩ : PageState Nat)
        (some ⟨some ⟨some (JVal.jnum 0)⟩, none⟩) := by
  rfl

/-- C6 (amended): the three count fetches are independent: when the
incoming fetch fails while the all/outgoing fetches succeed, the incoming
count falls back to `0` (with no stale/error marking) while the other two
show the counts extracted from their own responses, and the payments list,
filters and selected state are untouched. -/
theorem c6_amended (α : Type) (s : PageState α) (rAll rOut : ApiResponse) :
    (applyAllCount (applyOutgoingCount (applyIncomingCount s none) (some rOut))
      (some rAll)).incomingCount = 0 ∧
    (applyAllCount (applyOutgoingCount (applyIncomingCount s none) (some rOut))
      (some rAll)).allCount = extractCount rAll ∧
    (applyAllCount (applyOutgoingCount (applyIncomingCount s none) (some rOut))
      (some rAll)).outgoingCount = extractCount rOut ∧
    (applyAllCount (applyOutgoingCount (applyIncomingCount s none) (some rOut))
      (some rAll)).payments = s.payments ∧
    (applyAllCount (applyOutgoingCount (applyIncomingCount s none) (some rOut))
      (some rAll)).filters = s.filters ∧
    (applyAllCount (applyOutgoingCount (applyIncomingCount s none) (some rOut))
      (some rAll)).selectedState = s.selectedState := by
  simp [applyAllCount, applyOutgoingCount, applyIncomingCount]

/-- C7: applying new filter criteria or changing the direction tab resets
the current page to 1, while a pure page change leaves the filter criteria
(and the direction) unchanged.  (The page/fetch orchestration lives in
payment-table.tsx, which is not in the source set; `applyFilter`,
`setDirection` and `goToPage` are modelled from spec sections 4.4-4.5, 6
and 8.) -/
theorem c7_page_reset (s : ViewState) (f : PaymentFilters) (d : Direction)
    (n : Nat) :
    (applyFilter s f).currentPage = 1 ∧
    (setDirection s d).currentPage = 1 ∧
    (goToPage s n).filters = s.filters ∧
    (goToPage s n).direction = s.direction :=
  ⟨rfl, rfl, rfl, rfl⟩

/-- C8: for `totalPages ≥ 1`, `current ∈ [1, totalPages]` and
`maxVisible ≥ 1`, the pagination window (src/unnamed/part_002 lines 55-69,
`maxVisible` generalized from the constant 5) is a contiguous run of length
`min(maxVisible, totalPages)`, contains no number outside
`[1, totalPages]`, is never empty for a non-empty collection, and is
centered on `current` whenever the centered run fits within the bounds. -/
theorem windowOf_spec (tp c mv : Int) (htp : 1 ≤ tp) (_hc1 : 1 ≤ c)
    (_hc2 : c ≤ tp) (hmv : 1 ≤ mv) :
    ((windowOf tp c mv).length : Int) = min mv tp ∧
    (∀ x ∈ windowOf tp c mv, 1 ≤ x ∧ x ≤ tp) ∧
    (∃ s, 1 ≤ s ∧ s + min mv tp - 1 ≤ tp ∧
      windowOf tp c mv = intRange s (s + min mv tp - 1)) ∧
    1 ≤ (windowOf tp c mv).length ∧
    ((1 ≤ c - mv / 2 ∧ c - mv / 2 + mv - 1 ≤ tp) →
      windowOf tp c mv = intRange (c - mv / 2) (c - mv / 2 + mv - 1)) := by
  simp only [windowOf]
  set s0 := max 1 (c - mv / 2) with hs0
  set stop := min tp (s0 + mv - 1) with hstop
  by_cases hbr : stop - s0 + 1 < mv
  · rw [if_pos hbr]
    set s1 := max 1 (stop - mv + 1) with hs1
    refine ⟨?_, ?_, ⟨s1, by omega, by omega, ?_⟩, ?_, ?_⟩
    · rw [intRange_length]; omega
    · intro x hx
      rw [mem_intRange] at hx
      omega
    · have h : stop = s1 + min mv tp - 1 := by omega
      rw [← h]
    · rw [intRange_length]; omega
    · rintro ⟨hA, hB⟩
      omega
  · rw [if_neg hbr]
    have hstop2 : stop = s0 + mv - 1 := by omega
    refine ⟨?_, ?_, ⟨s0, by omega, by omega, ?_⟩, ?_, ?_⟩
    · rw [intRange_length]; omega
    · intro x hx
      rw [mem_intRange] at hx
      omega
    · have h : stop = s0 + min mv tp - 1 := by omega
      rw [← h]
    · rw [intRange_length]; omega
    · rintro ⟨hA, hB⟩
      have h1 : s0 = c - mv / 2 := by omega
      have h2 : stop = c - mv / 2 + mv - 1 := by omega
      rw [h1, h2]

/-- C8 witness: the window contract evaluated at `totalPages = 10`,
`current = 5`, `maxVisible = 5`. -/
theorem windowOf_spec_witness :
    ((windowOf 10 5 5).length : Int) = min 5 10 ∧
    (∀ x ∈ windowOf 10 5 5, 1 ≤ x ∧ x ≤ 10) ∧
    (∃ s, 1 ≤ s ∧ s + min 5 10 - 1 ≤ 10 ∧
      windowOf 10 5 5 = intRange s (s + min 5 10 - 1)) ∧
    1 ≤ (windowOf 10 5 5).length ∧
    (((1 : Int) ≤ 5 - 5 / 2 ∧ (5 : Int) - 5 / 2 + 5 - 1 ≤ 10) →
      windowOf 10 5 5 = intRange (5 - 5 / 2) (5 - 5 / 2 + 5 - 1)) :=
  windowOf_spec 10 5 5 (by decide) (by decide) (by decide) (by decide)

/-- C9: the count used by the fetch handlers equals the envelope's explicit
`pagination.total_items` when it is present and numeric, falls back to the
length of `data.items` when the explicit total is absent, and falls back to
`0` when the total is present but non-numeric or when total and items are
both absent (src/unnamed/part_004 lines 95-98). -/
theorem c9_envelope_total (r : ApiResponse) :
    (∀ n : Int, totalField r = some (JVal.jnum n) → extractCount r = n) ∧
    (∀ s : String, totalField r = some (JVal.jstr s) → extractCount r = 0) ∧
    (∀ items : List JVal, totalField r = none → itemsField r = some items →
      extractCount r = (items.length : Int)) ∧
    (totalField r = none → itemsField r = none → extractCount r = 0) := by
  refine ⟨?_, ?_, ?_, ?_⟩
  · intro n h
    simp [extractCount, h, numberOr0]
  · intro s h
    simp [extractCount, h, numberOr0]
  · intro items h1 h2
    simp [extractCount, h1, h2]
  · intro h1 h2
    simp [extractCount, h1, h2]

/-- C9 witness: a concrete envelope carrying an explicit numeric total. -/
theorem c9_witness :
    extractCount ⟨some ⟨some (JVal.jnum 42)⟩, none⟩ = 42 :=
  (c9_envelope_total ⟨some ⟨some (JVal.jnum 42)⟩, none⟩).1 42 rfl

/-- C10: `handleApplyFilters` replaces the filters state wholesale with the
applied object, sets `selectedState` to the applied payment state exactly
when it is present (leaving it unchanged otherwise), and leaves the three
category counts and the payments list untouched
(src/unnamed/part_004 lines 134-139). -/
theorem c10_apply_filters_frame (α : Type) (s : PageState α)
    (applied : PaymentFilters) :
    (handleApplyFilters s applied).filters = applied ∧
    (∀ ps, applied.paymentState = some ps →
      (handleApplyFilters s applied).selectedState = paymentStateStr ps) ∧
    (applied.paymentState = none →
      (handleApplyFilters s applied).selectedState = s.selectedState) ∧
    (handleApplyFilters s applied).incomingCount = s.incomingCount ∧
    (handleApplyFilters s applied).outgoingCount = s.outgoingCount ∧
    (handleApplyFilters s applied).allCount = s.allCount ∧
    (handleApplyFilters s applied).payments = s.payments := by
  unfold handleApplyFilters
  cases h : applied.paymentState <;> simp_all

/-- C10 witness: applying a filter with `paymentState = settled` on a
concrete page state. -/
theorem c10_witness :
    (handleApplyFilters (⟨"all", [], 1, 2, 3, {}⟩ : PageState Nat)
      { paymentState := some PaymentState.settled }).selectedState = "settled" ∧
    (handleApplyFilters (⟨"all", [], 1, 2, 3, {}⟩ : PageState Nat)
      { paymentState := some PaymentState.settled }).filters =
      { paymentState := some PaymentState.settled } :=
  ⟨(c10_apply_filters_frame Nat ⟨"all", [], 1, 2, 3, {}⟩
      { paymentState := some PaymentState.settled }).2.1 PaymentState.settled rfl,
   (c10_apply_filters_frame Nat ⟨"all", [], 1, 2, 3, {}⟩
      { paymentState := some PaymentState.settled }).1⟩

end NodeGaze
